import Mathlib

/-!
Verification of the crime-visualisation script (geolocation.py).

The script loads a CSV of crime records into a dataframe, drops two
outlier rows by position, and renders four artifacts: static scatter
plots (optionally colored by the OFFENSE or METHOD column through a
fixed color dictionary), a 2-D histogram heatmap, and an interactive
map whose markers are recolored by an embedded JS callback driven by a
radio-button selector.

The embedding below models the dataframe as a `List Record`,
coordinates as rationals, colors as strings or a small inductive type,
fallible operations (pandas positional indexing, dictionary key lookup,
numpy reductions over empty arrays, file writes into a missing
directory) as `Option`-returning functions, and the filesystem effects
of the renderers as explicit state passing over a small `FS` record.
-/

namespace CrimeVis

/-- One row of the crime dataset, with the columns the script reads:
`lat`, `long`, `OFFENSE`, `METHOD`, `START_DATE`. -/
structure Record where
  lat : ℚ
  long : ℚ
  offense : String
  method : String
  start_date : String
deriving DecidableEq

/-- `loadData` reads the CSV and executes
`df.drop(df.index[[222,758]], inplace=True)`.  After `read_csv` the
index is the range `0..n-1`, so the drop removes the rows at zero-based
positions 222 and 758; `df.index[[222,758]]` raises `IndexError` when a
positional index is out of bounds, modelled by `none`.  Removing the
larger position first keeps the smaller one stable. -/
def loadData (rows : List α) : Option (List α) :=
  if 758 < rows.length then some ((rows.eraseIdx 758).eraseIdx 222) else none

/-- Claim C1: for every input table with rows at positions 222 and 758
(i.e. more than 758 rows), the loader returns a table with exactly
`n - 2` rows in which the rows formerly at positions 222 and 758 are
absent and every other row is retained, in order: positions below 222
are unchanged, positions 222..756 hold the row formerly one later, and
positions from 757 on hold the row formerly two later. -/
theorem loadData_drops_rows_222_and_758 (rows : List α) (h : 758 < rows.length) :
    ∃ out, loadData rows = some out ∧
      out.length = rows.length - 2 ∧
      (∀ i, i < 222 → out[i]? = rows[i]?) ∧
      (∀ i, 222 ≤ i → i < 757 → out[i]? = rows[i + 1]?) ∧
      (∀ i, 757 ≤ i → out[i]? = rows[i + 2]?) := by
  refine ⟨(rows.eraseIdx 758).eraseIdx 222, ?_, ?_, ?_, ?_, ?_⟩
  · simp [loadData, h]
  · rw [List.length_eraseIdx, List.length_eraseIdx, if_pos h, if_pos (by omega)]
    omega
  · intro i hi
    rw [List.getElem?_eraseIdx, if_pos hi, List.getElem?_eraseIdx, if_pos (by omega)]
  · intro i h1 h2
    rw [List.getElem?_eraseIdx, if_neg (by omega), List.getElem?_eraseIdx,
      if_pos (by omega)]
  · intro i h1
    rw [List.getElem?_eraseIdx, if_neg (by omega), List.getElem?_eraseIdx,
      if_neg (by omega)]

/-- Witness for C1 at the concrete 760-row table `List.range 760`. -/
theorem loadData_drops_rows_222_and_758_witness :
    758 < (List.range 760).length ∧
    ∃ out, loadData (List.range 760) = some out ∧
      out.length = (List.range 760).length - 2 ∧
      (∀ i, i < 222 → out[i]? = (List.range 760)[i]?) ∧
      (∀ i, 222 ≤ i → i < 757 → out[i]? = (List.range 760)[i + 1]?) ∧
      (∀ i, 757 ≤ i → out[i]? = (List.range 760)[i + 2]?) :=
  ⟨by simp, loadData_drops_rows_222_and_758 (List.range 760) (by simp)⟩

/-- Matplotlib color codes appearing as values of the script's
`featToCol` dictionary: `'r'`, `'b'`, `'g'`. -/
inductive Color where
  | r
  | b
  | g
deriving DecidableEq

/-- The two column names `scatterPlot` is called with. -/
inductive Feature where
  | OFFENSE
  | METHOD
deriving DecidableEq

/-- The fixed dictionary `featToCol` of `scatterPlot`; a missing key is
a Python `KeyError`, modelled by `none`. -/
def featToCol (feat : String) : Option Color :=
  if feat = "SEX ABUSE" then some .r
  else if feat = "HOMICIDE" then some .b
  else if feat = "GUN" then some .r
  else if feat = "KNIFE" then some .b
  else if feat = "OTHERS" then some .g
  else none

/-- `df[feature]` for the two features in use. -/
def featureVal : Feature → Record → String
  | .OFFENSE, rec => rec.offense
  | .METHOD, rec => rec.method

/-- `map(lambda feat: featToCol[feat], df[feature])`: the whole mapping
fails (KeyError) as soon as one value is missing from the dictionary. -/
def mapKeyLookup (f : α → Option β) : List α → Option (List β)
  | [] => some []
  | a :: l =>
    match f a, mapKeyLookup f l with
    | some c, some cs => some (c :: cs)
    | _, _ => none

/-- The color list built by `scatterPlot`:
`map(lambda feat: featToCol[feat], df[feature]) if feature is not None
else ['r'] * len(df)`. -/
def scatterColors (df : List Record) : Option Feature → Option (List Color)
  | none => some (List.replicate df.length Color.r)
  | some f => mapKeyLookup (fun rec => featToCol (featureVal f rec)) df

/-- The markers `scatterPlot` draws: one `m.scatter` call per element of
`zip(lons, lats, colors)`, so one `(long, lat, color)` triple per
record when the color list was produced. -/
def scatterMarkers (df : List Record) (feature : Option Feature) :
    Option (List (ℚ × ℚ × Color)) :=
  (scatterColors df feature).map
    (fun cs => List.zipWith (fun rec c => (rec.long, rec.lat, c)) df cs)

lemma mapKeyLookup_cons (f : α → Option β) (a : α) (l : List α) :
    mapKeyLookup f (a :: l) =
      match f a, mapKeyLookup f l with
      | some c, some cs => some (c :: cs)
      | _, _ => none := rfl

/-- If every element is in the dictionary's domain and `g` names the
looked-up value, the lookup map is `List.map`. -/
lemma mapKeyLookup_eq_map (f : α → Option β) (g : α → β) (l : List α)
    (h : ∀ a ∈ l, f a = some (g a)) :
    mapKeyLookup f l = some (l.map g) := by
  induction l with
  | nil => rfl
  | cons a t ih =>
    rw [mapKeyLookup_cons, h a (by simp), ih (fun x hx => h x (by simp [hx]))]
    simp

/-- If some element is missing from the dictionary, the lookup map
fails. -/
lemma mapKeyLookup_eq_none (f : α → Option β) (l : List α)
    (h : ∃ a ∈ l, f a = none) :
    mapKeyLookup f l = none := by
  induction l with
  | nil => simp at h
  | cons a t ih =>
    obtain ⟨x, hx, hfx⟩ := h
    rw [mapKeyLookup_cons]
    rcases List.mem_cons.1 hx with rfl | hxt
    · rw [hfx]
    · rw [ih ⟨x, hxt, hfx⟩]
      cases f a <;> rfl

/-- Under the OFFENSE feature, when every offense is `SEX ABUSE` or
`HOMICIDE`, the colors are red for `SEX ABUSE` and blue otherwise. -/
lemma scatterColors_OFFENSE (df : List Record)
    (h : ∀ rec ∈ df, rec.offense = "SEX ABUSE" ∨ rec.offense = "HOMICIDE") :
    scatterColors df (some .OFFENSE) =
      some (df.map (fun rec =>
        if rec.offense = "SEX ABUSE" then Color.r else Color.b)) := by
  apply mapKeyLookup_eq_map
  intro rec hrec
  rcases h rec hrec with h1 | h1 <;> rw [featureVal, h1] <;> rfl

/-- Under the METHOD feature, when every method is `GUN`, `KNIFE` or
`OTHERS`, the colors are red / blue / green respectively. -/
lemma scatterColors_METHOD (df : List Record)
    (h : ∀ rec ∈ df, rec.method = "GUN" ∨ rec.method = "KNIFE" ∨
      rec.method = "OTHERS") :
    scatterColors df (some .METHOD) =
      some (df.map (fun rec =>
        if rec.method = "GUN" then Color.r
        else if rec.method = "KNIFE" then Color.b else Color.g)) := by
  apply mapKeyLookup_eq_map
  intro rec hrec
  rcases h rec hrec with h1 | h1 | h1 <;> rw [featureVal, h1] <;> rfl

/-- A record whose offense is `OTHERS`: this value lies in the fixed
lookup domain (it is a METHOD key) yet is neither `SEX ABUSE` nor
`HOMICIDE`. -/
def exRecOthers : Record :=
  { lat := 38, long := -77, offense := "OTHERS", method := "GUN",
    start_date := "2016-01-01" }

/-- Counterexample to claim C3 as stated: the table `[exRecOthers]` has
every offense value in the fixed lookup's domain, yet its marker color
is green, not the blue that "red exactly for SEX ABUSE and blue
otherwise" demands. -/
theorem scatterColors_OFFENSE_not_two_colored :
    (∀ rec ∈ [exRecOthers], (featToCol rec.offense).isSome = true) ∧
    scatterColors [exRecOthers] (some .OFFENSE) = some [Color.g] ∧
    scatterColors [exRecOthers] (some .OFFENSE) ≠
      some ([exRecOthers].map (fun rec =>
        if rec.offense = "SEX ABUSE" then Color.r else Color.b)) := by
  refine ⟨?_, ?_, ?_⟩ <;> decide

/-- Claim C3, amended: for every record table whose offense values all
lie in the OFFENSE part of the fixed lookup (`SEX ABUSE` or
`HOMICIDE`), scatter rendering with feature OFFENSE colors each marker
red exactly when the record's offense is `SEX ABUSE` and blue
otherwise. -/
theorem scatter_OFFENSE_red_iff_sex_abuse (df : List Record)
    (h : ∀ rec ∈ df, rec.offense = "SEX ABUSE" ∨ rec.offense = "HOMICIDE") :
    ∃ ms, scatterMarkers df (some .OFFENSE) = some ms ∧
      ms.length = df.length ∧
      ∀ i, ∀ hi : i < ms.length, ∀ hd : i < df.length,
        ((ms.get ⟨i, hi⟩).2.2 = Color.r ↔
          (df.get ⟨i, hd⟩).offense = "SEX ABUSE") ∧
        ((df.get ⟨i, hd⟩).offense ≠ "SEX ABUSE" →
          (ms.get ⟨i, hi⟩).2.2 = Color.b) := by
  refine ⟨List.zipWith (fun rec c => (rec.long, rec.lat, c)) df
      (df.map (fun rec =>
        if rec.offense = "SEX ABUSE" then Color.r else Color.b)), ?_, ?_, ?_⟩
  · rw [scatterMarkers, scatterColors_OFFENSE df h]
    rfl
  · rw [List.length_zipWith, List.length_map, min_self]
  · intro i hi hd
    simp only [List.get_eq_getElem]
    rw [List.getElem_zipWith, List.getElem_map]
    constructor
    · constructor
      · intro hcol
        by_contra hne
        rw [if_neg hne] at hcol
        exact Color.noConfusion hcol
      · intro hsa
        rw [if_pos hsa]
    · intro hne
      rw [if_neg hne]

/-- A concrete two-row table whose offenses are exactly the OFFENSE
keys of the lookup. -/
def exDfOffense : List Record :=
  [{ lat := 38, long := -77, offense := "SEX ABUSE", method := "GUN",
     start_date := "d" },
   { lat := 39, long := -76, offense := "HOMICIDE", method := "KNIFE",
     start_date := "d" }]

/-- Witness for the amended C3 on the concrete table `exDfOffense`. -/
theorem scatter_OFFENSE_red_iff_sex_abuse_witness :
    (∀ rec ∈ exDfOffense,
      rec.offense = "SEX ABUSE" ∨ rec.offense = "HOMICIDE") ∧
    ∃ ms, scatterMarkers exDfOffense (some .OFFENSE) = some ms ∧
      ms.length = exDfOffense.length ∧
      ∀ i, ∀ hi : i < ms.length, ∀ hd : i < exDfOffense.length,
        ((ms.get ⟨i, hi⟩).2.2 = Color.r ↔
          (exDfOffense.get ⟨i, hd⟩).offense = "SEX ABUSE") ∧
        ((exDfOffense.get ⟨i, hd⟩).offense ≠ "SEX ABUSE" →
          (ms.get ⟨i, hi⟩).2.2 = Color.b) :=
  ⟨by decide, scatter_OFFENSE_red_iff_sex_abuse exDfOffense (by decide)⟩

/-- Claim C5: for every record table containing a record whose
categorical value for the chosen feature is absent from the fixed
lookup, scatter rendering with that feature fails with a key-lookup
error (modelled by `none`) instead of producing a marker list. -/
theorem scatter_unmapped_value_fails (df : List Record) (f : Feature)
    (h : ∃ rec ∈ df, featToCol (featureVal f rec) = none) :
    scatterMarkers df (some f) = none := by
  rw [scatterMarkers, scatterColors, mapKeyLookup_eq_none _ df h]
  rfl

/-- A record with offense `ARSON`, a key missing from the lookup. -/
def exRecArson : Record :=
  { lat := 38, long := -77, offense := "ARSON", method := "GUN",
    start_date := "d" }

/-- Witness for C5 at the concrete one-row table `[exRecArson]`. -/
theorem scatter_unmapped_value_fails_witness :
    (∃ rec ∈ [exRecArson], featToCol (featureVal .OFFENSE rec) = none) ∧
    scatterMarkers [exRecArson] (some .OFFENSE) = none :=
  ⟨by decide, scatter_unmapped_value_fails [exRecArson] .OFFENSE (by decide)⟩

/-- Claim C8: for every record table, scatter rendering with no feature
selected (`feature=None`) plots exactly one marker per record and every
marker has the default color `'r'`. -/
theorem scatter_no_feature_all_red (df : List Record) :
    ∃ ms, scatterMarkers df none = some ms ∧ ms.length = df.length ∧
      ∀ m ∈ ms, m.2.2 = Color.r := by
  refine ⟨_, rfl, ?_, ?_⟩
  · rw [List.length_zipWith, List.length_replicate, min_self]
  · intro m hm
    obtain ⟨i, hi, hmi⟩ := List.getElem_of_mem hm
    rw [List.getElem_zipWith] at hmi
    rw [← hmi]
    exact List.getElem_replicate ..

/-- `np.max` / `np.min`: a reduction over an empty array raises
`ValueError`, modelled by `none`. -/
def npMax : List ℚ → Option ℚ
  | [] => none
  | x :: xs => some (xs.foldl max x)

/-- See `npMax`. -/
def npMin : List ℚ → Option ℚ
  | [] => none
  | x :: xs => some (xs.foldl min x)

/-- The corner coordinates `backgroundLayer` passes to `Basemap`. -/
structure Bounds where
  llcrnrlon : ℚ
  llcrnrlat : ℚ
  urcrnrlon : ℚ
  urcrnrlat : ℚ
deriving DecidableEq

/-- `backgroundLayer`: computes `np.max(lons)`, `np.max(lats)`,
`np.min(lons)`, `np.min(lats)` (in that order) and builds the map with
those corners.  The first reduction over an empty array raises, so an
empty input yields `none` before any map is produced. -/
def backgroundLayer (lons lats : List ℚ) : Option Bounds :=
  match npMax lons, npMax lats, npMin lons, npMin lats with
  | some maxLon, some maxLat, some minLon, some minLat =>
    some { llcrnrlon := minLon, llcrnrlat := minLat,
           urcrnrlon := maxLon, urcrnrlat := maxLat }
  | _, _, _, _ => none

/-- Claim C6: given empty longitude and latitude arrays, the
background-layer constructor fails during bounds computation (the
`np.max` reduction over a zero-size array raises `ValueError`) rather
than producing a map with degenerate bounds. -/
theorem backgroundLayer_empty_fails : backgroundLayer [] [] = none := rfl

/-- The script's `OUT_DIR` constant. -/
def OUT_DIR : String := "output/"

/-- The filesystem state the renderers touch: whether `OUT_DIR` exists
and which files have been written. -/
structure FS where
  outDirExists : Bool
  files : List String
deriving DecidableEq

/-- `if not os.path.exists(OUT_DIR): os.makedirs(OUT_DIR)`. -/
def ensureOutDir (fs : FS) : FS :=
  if fs.outDirExists then fs else { fs with outDirExists := true }

/-- Writing a file into `OUT_DIR` succeeds only if the directory
exists; otherwise the write raises (modelled by `none`). -/
def writeOut (name : String) (fs : FS) : Option FS :=
  if fs.outDirExists then some { fs with files := name :: fs.files }
  else none

/-- The PNG name `scatterPlot` writes:
`'scatter' + ('_' + feature.lower() if feature is not None else '') + '.png'`. -/
def scatterFileName : Option Feature → String
  | none => OUT_DIR ++ "scatter" ++ "" ++ ".png"
  | some .OFFENSE => OUT_DIR ++ "scatter" ++ "_" ++ "offense" ++ ".png"
  | some .METHOD => OUT_DIR ++ "scatter" ++ "_" ++ "method" ++ ".png"

/-- The filesystem effect of `scatterPlot`: create `OUT_DIR` if absent,
then `plt.savefig(...)`. -/
def scatterPlotFS (feature : Option Feature) (fs : FS) : Option FS :=
  writeOut (scatterFileName feature) (ensureOutDir fs)

/-- The filesystem effect of `heatmap`: create `OUT_DIR` if absent,
then `plt.savefig(OUT_DIR + 'heatmap.png')`. -/
def heatmapFS (fs : FS) : Option FS :=
  writeOut (OUT_DIR ++ "heatmap.png") (ensureOutDir fs)

/-- The filesystem effect of `bokeh_scatter`: it does NOT create
`OUT_DIR` itself; `save(l)` writes `OUT_DIR + 'bokeh_scatter.html'`. -/
def bokehScatterFS (fs : FS) : Option FS :=
  writeOut (OUT_DIR ++ "bokeh_scatter.html") fs

/-- The main block's sequence of renderer invocations, as it acts on
the filesystem. -/
def mainFS (fs : FS) : Option FS :=
  scatterPlotFS none fs >>= scatterPlotFS (some .OFFENSE) >>=
    scatterPlotFS (some .METHOD) >>= heatmapFS >>= bokehScatterFS

/-- Claim C7: starting from any filesystem state — in particular one
where the output directory is absent — the main sequence creates the
directory before the first write, every renderer's write succeeds, and
all five artifacts (three scatter PNGs, the heatmap PNG, and the
interactive HTML document) end up written. -/
theorem main_creates_out_dir_and_writes_all (fs : FS) :
    ∃ fs', mainFS fs = some fs' ∧ fs'.outDirExists = true ∧
      scatterFileName none ∈ fs'.files ∧
      scatterFileName (some .OFFENSE) ∈ fs'.files ∧
      scatterFileName (some .METHOD) ∈ fs'.files ∧
      (OUT_DIR ++ "heatmap.png") ∈ fs'.files ∧
      (OUT_DIR ++ "bokeh_scatter.html") ∈ fs'.files := by
  obtain ⟨b, files⟩ := fs
  cases b <;>
    simp [mainFS, scatterPlotFS, heatmapFS, bokehScatterFS, ensureOutDir,
      writeOut]

/-- The marker color string set initially by `bokeh_scatter`:
`'rgb(255, 0, 0)'` (with spaces). -/
def redInit : String := "rgb(255, 0, 0)"

/-- The red the JS callback writes: `'rgb(255,0,0)'` (no spaces). -/
def redJS : String := "rgb(255,0,0)"

/-- The blue the JS callback writes. -/
def blueJS : String := "rgb(0,0,255)"

/-- The green the JS callback writes. -/
def greenJS : String := "rgb(0,255,0)"

/-- The `ColumnDataSource.data` dictionary of `bokeh_scatter`. -/
structure BokehData where
  color : List String
  lat : List ℚ
  lon : List ℚ
  offense : List String
  weapon : List String
  start_date : List String
deriving DecidableEq

/-- The initial data source: one marker per record, every color
`'rgb(255, 0, 0)'`. -/
def bokehSource (df : List Record) : BokehData where
  color := List.replicate df.length redInit
  lat := df.map Record.lat
  lon := df.map Record.long
  offense := df.map Record.offense
  weapon := df.map Record.method
  start_date := df.map Record.start_date

/-- The `CustomJS` callback: `switch` on `cb_obj.active`.  Each case
loops `i` over `data['color'].length` and overwrites `data['color'][i]`
only; an option outside 0/1/2 hits no case and changes nothing.  Where
the JS reads `data['offense'][i]` or `data['weapon'][i]` past the end
of that array it gets `undefined`, which compares unequal to every
string literal; `List.getD` with default `""` reproduces those
comparisons. -/
def recolor (opt : ℤ) (d : BokehData) : BokehData :=
  if opt = 0 then
    { d with color := List.replicate d.color.length redJS }
  else if opt = 1 then
    { d with color := (List.range d.color.length).map (fun i =>
        if d.offense.getD i "" = "SEX ABUSE" then redJS else blueJS) }
  else if opt = 2 then
    { d with color := (List.range d.color.length).map (fun i =>
        if d.weapon.getD i "" = "GUN" then redJS
        else if d.weapon.getD i "" = "KNIFE" then blueJS
        else greenJS) }
  else d

/-- Claim C9: for every selector option and every data state, the
recoloring callback changes only the `color` array — `lat`, `lon`,
`offense`, `weapon` and `start_date` are untouched — and preserves the
length of every array, `color` included. -/
theorem recolor_only_touches_color (opt : ℤ) (d : BokehData) :
    (recolor opt d).lat = d.lat ∧ (recolor opt d).lon = d.lon ∧
    (recolor opt d).offense = d.offense ∧
    (recolor opt d).weapon = d.weapon ∧
    (recolor opt d).start_date = d.start_date ∧
    (recolor opt d).color.length = d.color.length := by
  unfold recolor
  split_ifs <;> simp

/-- A color string the interactive map can display: the two spellings
of red that occur in the script, or the callback's blue or green.  Each
denotes one of the three fixed colors red, blue, green. -/
def displayedColor (s : String) : Prop :=
  (s = redInit ∨ s = redJS) ∨ s = blueJS ∨ s = greenJS

/-- One callback activation maps displayed colors to displayed
colors. -/
lemma recolor_preserves_displayedColor (opt : ℤ) (d : BokehData)
    (h : ∀ s ∈ d.color, displayedColor s) :
    ∀ s ∈ (recolor opt d).color, displayedColor s := by
  intro s hs
  unfold recolor at hs
  split_ifs at hs
  · rw [List.eq_of_mem_replicate hs]
    exact Or.inl (Or.inr rfl)
  · obtain ⟨i, _, hi⟩ := List.mem_map.1 hs
    rw [← hi]
    split_ifs
    · exact Or.inl (Or.inr rfl)
    · exact Or.inr (Or.inl rfl)
  · obtain ⟨i, _, hi⟩ := List.mem_map.1 hs
    rw [← hi]
    split_ifs
    · exact Or.inl (Or.inr rfl)
    · exact Or.inr (Or.inl rfl)
    · exact Or.inr (Or.inr rfl)
  · exact h s hs

/-- Colors stay displayed along any sequence of activations. -/
lemma foldl_recolor_displayedColor (opts : List ℤ) (d : BokehData)
    (h : ∀ s ∈ d.color, displayedColor s) :
    ∀ s ∈ (opts.foldl (fun st o => recolor o st) d).color,
      displayedColor s := by
  induction opts generalizing d with
  | nil => exact h
  | cons o rest ih =>
    exact ih (recolor o d) (recolor_preserves_displayedColor o d h)

/-- Claim C10: initially and after any finite sequence of selector
activations with arbitrary integer option values, every marker color is
one of the three fixed colors red, blue, green (red having the two
spellings the script uses); moreover an option value outside
`{0, 1, 2}` leaves the data source entirely unchanged. -/
theorem bokeh_colors_invariant (df : List Record) (opts : List ℤ)
    (opt : ℤ) (d : BokehData)
    (h0 : opt ≠ 0) (h1 : opt ≠ 1) (h2 : opt ≠ 2) :
    (∀ s ∈ (bokehSource df).color, displayedColor s) ∧
    (∀ s ∈ (opts.foldl (fun st o => recolor o st) (bokehSource df)).color,
      displayedColor s) ∧
    recolor opt d = d := by
  have hinit : ∀ s ∈ (bokehSource df).color, displayedColor s := by
    intro s hs
    rw [List.eq_of_mem_replicate hs]
    exact Or.inl (Or.inl rfl)
  refine ⟨hinit, foldl_recolor_displayedColor opts _ hinit, ?_⟩
  unfold recolor
  rw [if_neg h0, if_neg h1, if_neg h2]

/-- Witness for C10 at a concrete table, activation sequence and
out-of-range option value 5. -/
theorem bokeh_colors_invariant_witness :
    (5 : ℤ) ≠ 0 ∧ (5 : ℤ) ≠ 1 ∧ (5 : ℤ) ≠ 2 ∧
    ((∀ s ∈ (bokehSource [exRecOthers]).color, displayedColor s) ∧
     (∀ s ∈ (([1, 7, 2, 0] : List ℤ).foldl (fun st o => recolor o st)
        (bokehSource [exRecOthers])).color, displayedColor s) ∧
     recolor 5 (bokehSource [exRecOthers]) = bokehSource [exRecOthers]) :=
  ⟨by decide, by decide, by decide,
    bokeh_colors_invariant [exRecOthers] [1, 7, 2, 0] 5
      (bokehSource [exRecOthers]) (by decide) (by decide) (by decide)⟩

/-- Correspondence between the matplotlib color codes of the static
scatter and the rgb strings the JS callback writes: both sides denote
the same three colors. -/
def colToJS : Color → String
  | .r => redJS
  | .b => blueJS
  | .g => greenJS

lemma range_map_getD (l : List α) (dflt : α) (f : α → β) :
    (List.range l.length).map (fun i => f (l.getD i dflt)) = l.map f := by
  apply List.ext_getElem
  · simp
  · intro n h1 h2
    simp only [List.getElem_map, List.getElem_range]
    rw [List.getD_eq_getElem l dflt (by simpa using h1)]

/-- Counterexample to claim C2 as stated: in the table `[exRecOthers]`
every record's offense and method lie in the static lookup's domain,
yet selector option 1 colors the marker blue while the static OFFENSE
rule colors it green. -/
theorem bokeh_option1_differs_from_static :
    (∀ rec ∈ [exRecOthers], (featToCol rec.offense).isSome = true ∧
      (featToCol rec.method).isSome = true) ∧
    scatterColors [exRecOthers] (some .OFFENSE) = some [Color.g] ∧
    (recolor 1 (bokehSource [exRecOthers])).color = [blueJS] ∧
    [blueJS] ≠ [Color.g].map colToJS := by
  refine ⟨?_, ?_, ?_, ?_⟩ <;> decide

/-- Claim C2, amended: whenever every record's offense lies in the
OFFENSE part of the lookup (`SEX ABUSE`/`HOMICIDE`) and every record's
method lies in the METHOD part (`GUN`/`KNIFE`/`OTHERS`), the selector
callback with option 1 assigns each marker exactly the OFFENSE
static-scatter color, option 2 exactly the METHOD static-scatter
color, and option 0 the uniform default color of the featureless
static scatter — each matplotlib code read through `colToJS`. -/
theorem bokeh_recolor_matches_static (df : List Record)
    (hoff : ∀ rec ∈ df, rec.offense = "SEX ABUSE" ∨
      rec.offense = "HOMICIDE")
    (hmeth : ∀ rec ∈ df, rec.method = "GUN" ∨ rec.method = "KNIFE" ∨
      rec.method = "OTHERS") :
    (∃ cs, scatterColors df (some .OFFENSE) = some cs ∧
      (recolor 1 (bokehSource df)).color = cs.map colToJS) ∧
    (∃ cs, scatterColors df (some .METHOD) = some cs ∧
      (recolor 2 (bokehSource df)).color = cs.map colToJS) ∧
    (∃ cs, scatterColors df none = some cs ∧
      (recolor 0 (bokehSource df)).color = cs.map colToJS) := by
  have hlen : (bokehSource df).color.length = df.length :=
    List.length_replicate ..
  refine ⟨⟨_, scatterColors_OFFENSE df hoff, ?_⟩,
    ⟨_, scatterColors_METHOD df hmeth, ?_⟩, ⟨_, rfl, ?_⟩⟩
  · show (recolor 1 (bokehSource df)).color = _
    unfold recolor
    rw [if_neg (by decide), if_pos rfl]
    show (List.range (bokehSource df).color.length).map _ = _
    have hoffeq : (bokehSource df).offense = df.map Record.offense := rfl
    rw [hlen, hoffeq]
    have : df.length = (df.map Record.offense).length :=
      (List.length_map ..).symm
    rw [this, range_map_getD (df.map Record.offense) ""
      (fun s => if s = "SEX ABUSE" then redJS else blueJS)]
    rw [List.map_map, List.map_map]
    apply List.map_congr_left
    intro rec _
    simp only [Function.comp_apply, apply_ite colToJS]
    rfl
  · show (recolor 2 (bokehSource df)).color = _
    unfold recolor
    rw [if_neg (by decide), if_neg (by decide), if_pos rfl]
    show (List.range (bokehSource df).color.length).map _ = _
    have hweapeq : (bokehSource df).weapon = df.map Record.method := rfl
    rw [hlen, hweapeq]
    have : df.length = (df.map Record.method).length :=
      (List.length_map ..).symm
    rw [this, range_map_getD (df.map Record.method) ""
      (fun s => if s = "GUN" then redJS
        else if s = "KNIFE" then blueJS else greenJS)]
    rw [List.map_map, List.map_map]
    apply List.map_congr_left
    intro rec _
    simp only [Function.comp_apply, apply_ite colToJS]
    rfl
  · show (recolor 0 (bokehSource df)).color = _
    unfold recolor
    rw [if_pos rfl]
    show List.replicate (bokehSource df).color.length redJS = _
    rw [hlen, List.map_replicate]
    rfl

/-- Witness for the amended C2 at the concrete table `exDfOffense`. -/
theorem bokeh_recolor_matches_static_witness :
    (∀ rec ∈ exDfOffense, rec.offense = "SEX ABUSE" ∨
      rec.offense = "HOMICIDE") ∧
    (∀ rec ∈ exDfOffense, rec.method = "GUN" ∨ rec.method = "KNIFE" ∨
      rec.method = "OTHERS") ∧
    ((∃ cs, scatterColors exDfOffense (some .OFFENSE) = some cs ∧
      (recolor 1 (bokehSource exDfOffense)).color = cs.map colToJS) ∧
    (∃ cs, scatterColors exDfOffense (some .METHOD) = some cs ∧
      (recolor 2 (bokehSource exDfOffense)).color = cs.map colToJS) ∧
    (∃ cs, scatterColors exDfOffense none = some cs ∧
      (recolor 0 (bokehSource exDfOffense)).color = cs.map colToJS)) :=
  ⟨by decide, by decide,
    bokeh_recolor_matches_static exDfOffense (by decide) (by decide)⟩

/-- `np.linspace(start, stop, num)`: `num` evenly spaced values
`start + k*(stop-start)/(num-1)`, exact in rational arithmetic. -/
def linspace (a b : ℚ) (num : ℕ) : List ℚ :=
  (List.range num).map
    (fun k : ℕ => a + (k : ℚ) * ((b - a) / ((num : ℚ) - 1)))

set_option maxRecDepth 4000 in
lemma range500_head : (List.range 500).head? = some 0 := rfl

set_option maxRecDepth 4000 in
lemma range500_last : (List.range 500).getLast? = some 499 := rfl

lemma linspace_head? (a b : ℚ) : (linspace a b 500).head? = some a := by
  unfold linspace
  rw [List.head?_map, range500_head]
  simp

lemma linspace_getLast? (a b : ℚ) : (linspace a b 500).getLast? = some b := by
  unfold linspace
  rw [List.getLast?_map, range500_last]
  simp only [Option.map_some']
  congr 1
  push_cast
  ring_nf

lemma linspace_length (a b : ℚ) (num : ℕ) : (linspace a b num).length = num := by
  unfold linspace
  rw [List.length_map, List.length_range]

lemma linspace_ne_nil (a b : ℚ) : linspace a b 500 ≠ [] := by
  intro hc
  have hl := linspace_length a b 500
  rw [hc] at hl
  simp at hl

/-- Bin assignment of `np.histogram2d` (through `histogramdd`) along
one axis, for a monotonically increasing edges array: the insertion
index of `x` among the edges from the right (the number of edges
`≤ x`) minus one, values lying exactly on the rightmost edge folded
back into the last bin, and values outside `[first edge, last edge]`
not counted at all (`none`). -/
def histBin (edges : List ℚ) (x : ℚ) : Option ℕ :=
  if edges = [] then none
  else if x < (edges.head?).getD 0 ∨ (edges.getLast?).getD 0 < x then none
  else some (min (edges.countP (fun e => decide (e ≤ x)) - 1)
    (edges.length - 2))

/-- Any value between the first and last of 500 linspace edges lands in
one of the 499 bins. -/
lemma histBin_linspace_some (a b x : ℚ) (h1 : a ≤ x) (h2 : x ≤ b) :
    ∃ i, i < 499 ∧ histBin (linspace a b 500) x = some i := by
  refine ⟨min ((linspace a b 500).countP (fun e => decide (e ≤ x)) - 1) 498,
    lt_of_le_of_lt (min_le_right _ _) (by norm_num), ?_⟩
  unfold histBin
  rw [if_neg (linspace_ne_nil a b), linspace_head?, linspace_getLast?]
  simp only [Option.getD_some]
  rw [if_neg (by push_neg; exact ⟨h1, h2⟩), linspace_length]

lemma foldl_min_le_init (xs : List ℚ) (a : ℚ) : xs.foldl min a ≤ a := by
  induction xs generalizing a with
  | nil => exact le_refl a
  | cons y t ih => exact le_trans (ih (min a y)) (min_le_left a y)

lemma foldl_min_le_mem (xs : List ℚ) (a : ℚ) : ∀ x ∈ xs, xs.foldl min a ≤ x := by
  induction xs generalizing a with
  | nil =>
    intro x hx
    simp at hx
  | cons y t ih =>
    intro x hx
    rcases List.mem_cons.1 hx with rfl | hxt
    · exact le_trans (foldl_min_le_init t (min a x)) (min_le_right a x)
    · exact ih (min a y) x hxt

lemma le_foldl_max_init (xs : List ℚ) (a : ℚ) : a ≤ xs.foldl max a := by
  induction xs generalizing a with
  | nil => exact le_refl a
  | cons y t ih => exact le_trans (le_max_left a y) (ih (max a y))

lemma le_foldl_max_mem (xs : List ℚ) (a : ℚ) : ∀ x ∈ xs, x ≤ xs.foldl max a := by
  induction xs generalizing a with
  | nil =>
    intro x hx
    simp at hx
  | cons y t ih =>
    intro x hx
    rcases List.mem_cons.1 hx with rfl | hxt
    · exact le_trans (le_max_right a x) (le_foldl_max_init t (max a x))
    · exact ih (max a y) x hxt

/-- A nonempty array has a `np.min`, and it bounds every element. -/
lemma exists_npMin (l : List ℚ) (h : l ≠ []) :
    ∃ m, npMin l = some m ∧ ∀ x ∈ l, m ≤ x := by
  match l with
  | [] => exact absurd rfl h
  | y :: t =>
    refine ⟨t.foldl min y, rfl, ?_⟩
    intro x hx
    rcases List.mem_cons.1 hx with rfl | hxt
    · exact foldl_min_le_init t x
    · exact foldl_min_le_mem t y x hxt

/-- A nonempty array has a `np.max`, and it bounds every element. -/
lemma exists_npMax (l : List ℚ) (h : l ≠ []) :
    ∃ m, npMax l = some m ∧ ∀ x ∈ l, x ≤ m := by
  match l with
  | [] => exact absurd rfl h
  | y :: t =>
    refine ⟨t.foldl max y, rfl, ?_⟩
    intro x hx
    rcases List.mem_cons.1 hx with rfl | hxt
    · exact le_foldl_max_init t x
    · exact le_foldl_max_mem t y x hxt

/-- The bin-edge array of `heatmap` along one axis:
`np.linspace(min(v)-db, max(v)+db, 500)` with padding `db = 1`. -/
def binEdges (vals : List ℚ) : Option (List ℚ) :=
  (npMin vals).bind (fun lo =>
    (npMax vals).map (fun hi => linspace (lo - 1) (hi + 1) 500))

/-- The 2-D histogram computed by `heatmap`:
`np.histogram2d(lats, lons, [lat_bins, lon_bins])`.  Cell `(i, j)`
holds the raw, unweighted, unnormalized count of records whose
latitude falls in latitude bin `i` and whose longitude falls in
longitude bin `j`. -/
def heatmapDensity (df : List Record) : Option (ℕ → ℕ → ℕ) :=
  (binEdges (df.map Record.lat)).bind (fun latBins =>
    (binEdges (df.map Record.long)).map (fun lonBins =>
      fun i j => (df.filter (fun rec =>
        decide (histBin latBins rec.lat = some i ∧
          histBin lonBins rec.long = some j))).length))

/-- Summing, over a 499 × 499 grid of cells, the number of list
elements whose (functional) pair of bin assignments names that cell
gives back the length of the list, provided every element is assigned
some cell of the grid. -/
lemma sum_sum_filter_length (l : List Record) (f g : Record → Option ℕ)
    (h : ∀ rec ∈ l, ∃ i, i < 499 ∧ ∃ j, j < 499 ∧
      f rec = some i ∧ g rec = some j) :
    (∑ i ∈ Finset.range 499, ∑ j ∈ Finset.range 499,
      (l.filter (fun rec =>
        decide (f rec = some i ∧ g rec = some j))).length) = l.length := by
  induction l with
  | nil => simp
  | cons rec t ih =>
    obtain ⟨i0, hi0, j0, hj0, hf0, hg0⟩ := h rec (List.mem_cons_self rec t)
    have hsplit : ∀ i j : ℕ,
        ((rec :: t).filter (fun r =>
          decide (f r = some i ∧ g r = some j))).length =
        (if f rec = some i ∧ g rec = some j then 1 else 0) +
        (t.filter (fun r => decide (f r = some i ∧ g r = some j))).length := by
      intro i j
      rw [List.filter_cons]
      by_cases hc : f rec = some i ∧ g rec = some j
      · rw [if_pos (by simpa using hc), if_pos hc, List.length_cons]
        omega
      · rw [if_neg (by simpa using hc), if_neg hc, zero_add]
    simp only [hsplit, Finset.sum_add_distrib]
    rw [ih (fun r hr => h r (List.mem_cons_of_mem rec hr))]
    have hone : (∑ i ∈ Finset.range 499, ∑ j ∈ Finset.range 499,
        if f rec = some i ∧ g rec = some j then (1:ℕ) else 0) = 1 := by
      rw [hf0, hg0]
      simp only [Option.some.injEq]
      have hinner : ∀ i : ℕ, (∑ j ∈ Finset.range 499,
          if i0 = i ∧ j0 = j then (1:ℕ) else 0) =
          if i0 = i then 1 else 0 := by
        intro i
        by_cases hi : i0 = i
        · simp only [hi, true_and]
          rw [Finset.sum_ite_eq, if_pos (Finset.mem_range.2 hj0)]
          simp
        · simp [hi]
      rw [Finset.sum_congr rfl (fun i _ => hinner i), Finset.sum_ite_eq,
        if_pos (Finset.mem_range.2 hi0)]
    rw [hone, List.length_cons]
    omega

/-- Claim C4: for every nonempty record table, the heatmap's 2-D
histogram over the 499 × 499 bins induced by the 500 padded linspace
edges per axis assigns every record one cell (existence and, the bin
maps being functions, uniqueness), its cell counts are raw unweighted
counts that sum to exactly the number of records, and a cell no record
falls in has count zero. -/
theorem heatmap_histogram_counts (df : List Record) (h : df ≠ []) :
    ∃ latBins lonBins density,
      binEdges (df.map Record.lat) = some latBins ∧
      binEdges (df.map Record.long) = some lonBins ∧
      heatmapDensity df = some density ∧
      (∀ i j, density i j = (df.filter (fun rec =>
        decide (histBin latBins rec.lat = some i ∧
          histBin lonBins rec.long = some j))).length) ∧
      (∀ rec ∈ df, ∃ i, i < 499 ∧ ∃ j, j < 499 ∧
        histBin latBins rec.lat = some i ∧
        histBin lonBins rec.long = some j) ∧
      (∀ rec ∈ df, ∀ i j i' j',
        histBin latBins rec.lat = some i →
        histBin lonBins rec.long = some j →
        histBin latBins rec.lat = some i' →
        histBin lonBins rec.long = some j' → i = i' ∧ j = j') ∧
      ((∑ i ∈ Finset.range 499, ∑ j ∈ Finset.range 499, density i j) =
        df.length) ∧
      (∀ i j, (∀ rec ∈ df, ¬(histBin latBins rec.lat = some i ∧
        histBin lonBins rec.long = some j)) → density i j = 0) := by
  have hlatne : df.map Record.lat ≠ [] := by simpa using h
  have hlonne : df.map Record.long ≠ [] := by simpa using h
  obtain ⟨latLo, hminlat, hlatlo⟩ := exists_npMin _ hlatne
  obtain ⟨latHi, hmaxlat, hlathi⟩ := exists_npMax _ hlatne
  obtain ⟨lonLo, hminlon, hlonlo⟩ := exists_npMin _ hlonne
  obtain ⟨lonHi, hmaxlon, hlonhi⟩ := exists_npMax _ hlonne
  have hlatbins : binEdges (df.map Record.lat) =
      some (linspace (latLo - 1) (latHi + 1) 500) := by
    rw [binEdges, hminlat, hmaxlat]
    rfl
  have hlonbins : binEdges (df.map Record.long) =
      some (linspace (lonLo - 1) (lonHi + 1) 500) := by
    rw [binEdges, hminlon, hmaxlon]
    rfl
  have hmem : ∀ rec ∈ df, ∃ i, i < 499 ∧ ∃ j, j < 499 ∧
      histBin (linspace (latLo - 1) (latHi + 1) 500) rec.lat = some i ∧
      histBin (linspace (lonLo - 1) (lonHi + 1) 500) rec.long = some j := by
    intro rec hrec
    have hb1 : latLo - 1 ≤ rec.lat := by
      have := hlatlo rec.lat (List.mem_map_of_mem Record.lat hrec)
      linarith
    have hb2 : rec.lat ≤ latHi + 1 := by
      have := hlathi rec.lat (List.mem_map_of_mem Record.lat hrec)
      linarith
    have hb3 : lonLo - 1 ≤ rec.long := by
      have := hlonlo rec.long (List.mem_map_of_mem Record.long hrec)
      linarith
    have hb4 : rec.long ≤ lonHi + 1 := by
      have := hlonhi rec.long (List.mem_map_of_mem Record.long hrec)
      linarith
    obtain ⟨i, hi, hieq⟩ := histBin_linspace_some _ _ _ hb1 hb2
    obtain ⟨j, hj, hjeq⟩ := histBin_linspace_some _ _ _ hb3 hb4
    exact ⟨i, hi, j, hj, hieq, hjeq⟩
  refine ⟨_, _, _, hlatbins, hlonbins, ?_, fun i j => rfl, hmem, ?_, ?_, ?_⟩
  · rw [heatmapDensity, hlatbins, hlonbins]
    rfl
  · intro rec _ i j i' j' e1 e2 e3 e4
    constructor
    · have e5 := e1.symm.trans e3
      injection e5
    · have e6 := e2.symm.trans e4
      injection e6
  · exact sum_sum_filter_length df _ _ hmem
  · intro i j hnone
    rw [List.length_eq_zero, List.filter_eq_nil_iff]
    intro rec hrec
    simp only [decide_eq_true_eq]
    exact hnone rec hrec

/-- Witness for C4 at the concrete one-row table `[exRecOthers]`. -/
theorem heatmap_histogram_counts_witness :
    ([exRecOthers] ≠ []) ∧
    ∃ latBins lonBins density,
      binEdges ([exRecOthers].map Record.lat) = some latBins ∧
      binEdges ([exRecOthers].map Record.long) = some lonBins ∧
      heatmapDensity [exRecOthers] = some density ∧
      (∀ i j, density i j = ([exRecOthers].filter (fun rec =>
        decide (histBin latBins rec.lat = some i ∧
          histBin lonBins rec.long = some j))).length) ∧
      (∀ rec ∈ [exRecOthers], ∃ i, i < 499 ∧ ∃ j, j < 499 ∧
        histBin latBins rec.lat = some i ∧
        histBin lonBins rec.long = some j) ∧
      (∀ rec ∈ [exRecOthers], ∀ i j i' j',
        histBin latBins rec.lat = some i →
        histBin lonBins rec.long = some j →
        histBin latBins rec.lat = some i' →
        histBin lonBins rec.long = some j' → i = i' ∧ j = j') ∧
      ((∑ i ∈ Finset.range 499, ∑ j ∈ Finset.range 499, density i j) =
        ([exRecOthers] : List Record).length) ∧
      (∀ i j, (∀ rec ∈ [exRecOthers], ¬(histBin latBins rec.lat = some i ∧
        histBin lonBins rec.long = some j)) → density i j = 0) :=
  ⟨by decide, heatmap_histogram_counts [exRecOthers] (by decide)⟩

end CrimeVis
